import Mathlib

/-!
Verification development for the `ofd` protocol codec (`ofd/protocol.py`,
`example/mock_ofd.py`).

Byte strings are modelled as `List Nat` with every element below 256.
Python's `struct` little-endian fields are modelled arithmetically
(`b0 + 256*b1 + ...`); fallible operations (`struct.error`, `ValueError`,
`KeyError`, `AttributeError`, `UnicodeEncodeError`) return `Option`.
-/

namespace OFD

/-- Models `struct.pack('<H', n)` (two little-endian bytes, value reduced mod 2^16). -/
def u16bytes (n : Nat) : List Nat := [n % 256, n / 256 % 256]

/-- Models `struct.pack('<I', n)` (four little-endian bytes). -/
def u32bytes (n : Nat) : List Nat :=
  [n % 256, n / 256 % 256, n / 65536 % 256, n / 16777216 % 256]

/-- Read the little-endian u16 at offset `i` of a byte list
(`struct.unpack('<H', l[i:i+2])`). -/
def u16le (l : List Nat) (i : Nat) : Nat := l.getD i 0 + 256 * l.getD (i + 1) 0

/-- Little-endian value of a whole byte list (first byte least significant). -/
def leValue (l : List Nat) : Nat := l.foldr (fun b acc => b + 256 * acc) 0

/-- Models `struct.pack('<Q', n)`: the eight little-endian bytes of `n`. -/
def le8 (n : Nat) : List Nat :=
  [n % 256, n / 256 % 256, n / 65536 % 256, n / 16777216 % 256,
   n / 4294967296 % 256, n / 1099511627776 % 256,
   n / 281474976710656 % 256, n / 72057594037927936 % 256]

/-- Models `struct.pack('Ns', b)` semantics: truncate or right-pad with zero bytes
to exactly `n` bytes. -/
def padTo (n : Nat) (l : List Nat) : List Nat :=
  l.take n ++ List.replicate (n - l.length) 0

/-- Unicode code points of CP866 bytes `0x80`–`0xFF` (the low half is ASCII). -/
def cp866_high : List Nat := [
  0x410, 0x411, 0x412, 0x413, 0x414, 0x415, 0x416, 0x417,
  0x418, 0x419, 0x41A, 0x41B, 0x41C, 0x41D, 0x41E, 0x41F,
  0x420, 0x421, 0x422, 0x423, 0x424, 0x425, 0x426, 0x427,
  0x428, 0x429, 0x42A, 0x42B, 0x42C, 0x42D, 0x42E, 0x42F,
  0x430, 0x431, 0x432, 0x433, 0x434, 0x435, 0x436, 0x437,
  0x438, 0x439, 0x43A, 0x43B, 0x43C, 0x43D, 0x43E, 0x43F,
  0x2591, 0x2592, 0x2593, 0x2502, 0x2524, 0x2561, 0x2562, 0x2556,
  0x2555, 0x2563, 0x2551, 0x2557, 0x255D, 0x255C, 0x255B, 0x2510,
  0x2514, 0x2534, 0x252C, 0x251C, 0x2500, 0x253C, 0x255E, 0x255F,
  0x255A, 0x2554, 0x2569, 0x2566, 0x2560, 0x2550, 0x256C, 0x2567,
  0x2568, 0x2564, 0x2565, 0x2559, 0x2558, 0x2552, 0x2553, 0x256B,
  0x256A, 0x2518, 0x250C, 0x2588, 0x2584, 0x258C, 0x2590, 0x2580,
  0x440, 0x441, 0x442, 0x443, 0x444, 0x445, 0x446, 0x447,
  0x448, 0x449, 0x44A, 0x44B, 0x44C, 0x44D, 0x44E, 0x44F,
  0x401, 0x451, 0x404, 0x454, 0x407, 0x457, 0x40E, 0x45E,
  0xB0, 0x2219, 0xB7, 0x221A, 0x2116, 0xA4, 0x25A0, 0xA0]

/-- Encode one character to its CP866 byte (`none` = `UnicodeEncodeError`). -/
def cp866EncodeChar (c : Char) : Option Nat :=
  if c.toNat < 128 then some c.toNat
  else (cp866_high.findIdx? (· = c.toNat)).map (· + 128)

/-- Encode a character list, failing on the first unencodable character. -/
def cp866EncodeList : List Char → Option (List Nat)
  | [] => some []
  | c :: cs =>
      match cp866EncodeChar c, cp866EncodeList cs with
      | some b, some bs => some (b :: bs)
      | _, _ => none

/-- Models `s.encode('cp866')` (`none` when some character is not representable). -/
def cp866Encode (s : String) : Option (List Nat) := cp866EncodeList s.data

/-- Decode one CP866 byte to a character. -/
def cp866DecodeByte (b : Nat) : Char :=
  if b < 128 then Char.ofNat b else Char.ofNat (cp866_high.getD (b - 128) 0)

/-- Models `bytes.decode('cp866')`. -/
def cp866Decode (l : List Nat) : String := ⟨l.map cp866DecodeByte⟩

/-- Decoded Python values produced by the codec. `fvlnv pos num` stands for
the decimal value `num · 10^(-pos)` produced by `FVLN.unpack` (the final
`float(...)` conversion is kept symbolic). -/
inductive PyVal where
  | int (n : Int)
  | str (s : String)
  | bytes (b : List Nat)
  | list (elems : List PyVal)
  | obj (fields : List (String × PyVal))
  | fvlnv (pos : Int) (num : Nat)
deriving Repr

/-- One registry entry of `DOCUMENTS`: the packer/unpacker class together
with its constructor arguments (`Byte`, `U32`, `String`, `ByteArray`,
`UnixTime`, `VLN`, `FVLN`, `STLV` in `ofd/protocol.py`).  Defaults from the
source: `Byte.cardinality = None`, `VLN.maxlen = 8`, `STLV.cardinality = '1'`. -/
inductive DocKind where
  | byte (name desc : String) (cardinality : Option String)
  | u32 (name desc : String)
  | str (name desc : String) (maxlen : Nat)
  | bytearr (name desc : String) (maxlen : Nat)
  | unix (name desc : String)
  | vln (name desc : String) (maxlen : Nat)
  | fvln (name desc : String) (maxlen : Nat)
  | stlv (name desc : String) (maxlen : Nat) (cardinality : String)
deriving Repr

def DocKind.name : DocKind → String
  | .byte n _ _ => n
  | .u32 n _ => n
  | .str n _ _ => n
  | .bytearr n _ _ => n
  | .unix n _ => n
  | .vln n _ _ => n
  | .fvln n _ _ => n
  | .stlv n _ _ _ => n

def DocKind.desc : DocKind → String
  | .byte _ d _ => d
  | .u32 _ d => d
  | .str _ d _ => d
  | .bytearr _ d _ => d
  | .unix _ d => d
  | .vln _ d _ => d
  | .fvln _ d _ => d
  | .stlv _ d _ _ => d

/-- Models `hasattr(doc, 'cardinality') and doc.cardinality in {'*', '+'}`: only the
`Byte` and `STLV` classes carry a `cardinality` attribute. -/
def DocKind.manyCard : DocKind → Bool
  | .byte _ _ c => c = some "*" ∨ c = some "+"
  | .stlv _ _ _ c => c = "*" ∨ c = "+"
  | _ => false

namespace Byte

/-- Models `Byte.pack`: `struct.pack('B', n)`; `struct.error` outside `[0, 255]`
or on a non-integer. -/
def pack : PyVal → Option (List Nat)
  | .int n => if 0 ≤ n ∧ n < 256 then some [n.toNat] else none
  | _ => none

/-- Models `Byte.unpack`: `struct.unpack('B', data)` needs exactly one byte. -/
def unpack : List Nat → Option PyVal
  | [b] => some (.int b)
  | _ => none

end Byte

namespace U32

/-- Models `U32.pack`: `struct.pack('<I', n)`. -/
def pack : PyVal → Option (List Nat)
  | .int n => if 0 ≤ n ∧ n < 4294967296 then some (u32bytes n.toNat) else none
  | _ => none

/-- Models `U32.unpack`: `struct.unpack('<I', data)` needs exactly four bytes. -/
def unpack (data : List Nat) : Option PyVal :=
  if data.length = 4 then some (.int (leValue data)) else none

end U32

/- Models class `String` of `ofd/protocol.py` (the name `String` itself is
taken by Lean's string type). -/
namespace StringCodec

/-- Models `String.pack` (a `@staticmethod`: it never sees `maxlen`):
`struct.pack('{len(value)}s', value.encode('cp866'))`. -/
def pack (value : String) : Option (List Nat) :=
  (cp866Encode value).map (padTo value.length)

/-- Models `String.unpack`: empty input decodes to `''` before any check;
otherwise sizes above `maxlen` raise `ValueError`. -/
def unpack (maxlen : Nat) (data : List Nat) : Option PyVal :=
  if data.length = 0 then some (.str "")
  else if data.length > maxlen then none
  else some (.str (cp866Decode data))

end StringCodec

/- Models class `ByteArray` of `ofd/protocol.py`. -/
namespace ByteArrayCodec

/-- Models `ByteArray.pack`: `struct.pack('{len(value)}s', value)` is the identity
on byte strings. -/
def pack : PyVal → Option (List Nat)
  | .bytes b => some b
  | _ => none

/-- Models `ByteArray.unpack`: empty input returns `''` (a *text* string) before the
`maxlen` check; otherwise the bytes are returned unchanged. -/
def unpack (maxlen : Nat) (data : List Nat) : Option PyVal :=
  if data.length = 0 then some (.str "")
  else if data.length > maxlen then none
  else some (.bytes data)

end ByteArrayCodec

namespace UnixTime

/-- Models `UnixTime.pack`: `struct.pack('<I', int(time))` (only integer inputs are
modelled; `int(...)` coercion of floats and digit strings is out of scope). -/
def pack : PyVal → Option (List Nat)
  | .int n => if 0 ≤ n ∧ n < 4294967296 then some (u32bytes n.toNat) else none
  | _ => none

/-- Models `UnixTime.unpack`: same wire format as `U32`. -/
def unpack (data : List Nat) : Option PyVal :=
  if data.length = 4 then some (.int (leValue data)) else none

end UnixTime

namespace VLN

/-- Modelled from the spec: `VLN.pack` is exercised by the unit tests
(`TestVLN.test_pack_*`) but its body is not part of `src/ofd/protocol.py`.
Spec §4.1: pack the value as 8 bytes little-endian; if `maxlen < 8`,
truncate trailing bytes beyond `maxlen` iff each truncated byte is `0x00`;
otherwise fail with overflow. Values outside the u64 range fail
(`struct.pack('<Q', ...)`). -/
def pack (maxlen : Nat) (n : Nat) : Option (List Nat) :=
  if n ≥ 18446744073709551616 then none
  else if maxlen < 8 then
    if ((le8 n).drop maxlen).all (· = 0) then some ((le8 n).take maxlen) else none
  else some (le8 n)

/-- Models `VLN.unpack`: reject sizes above `maxlen`, right-pad with zero bytes to
eight and read a little-endian u64 (`struct.unpack('<Q', ...)` fails when
more than eight bytes remain). -/
def unpack (maxlen : Nat) (data : List Nat) : Option PyVal :=
  if data.length > maxlen then none
  else if data.length > 8 then none
  else some (.int (leValue data))

end VLN

namespace FVLN

/-- Models `FVLN.unpack`: reject sizes above `maxlen`, right-pad to nine bytes and
split into a signed position byte and a little-endian u64 mantissa
(`struct.unpack('<bQ', ...)`); the resulting decimal is kept symbolic as
`PyVal.fvlnv`. -/
def unpack (maxlen : Nat) (data : List Nat) : Option PyVal :=
  if data.length > maxlen then none
  else if data.length > 9 then none
  else
    let padded := data ++ List.replicate (9 - data.length) 0
    let b0 := padded.getD 0 0
    let pos : Int := if b0 < 128 then (b0 : Int) else (b0 : Int) - 256
    some (.fvlnv pos (leValue (padded.drop 1)))

end FVLN

/-- The tag registry `DOCUMENTS` of `ofd/protocol.py`, in source order. -/
def DOCUMENTS : List (Nat × DocKind) := [
  (1, DocKind.stlv "fiscalReport" "Отчёт о фискализации" 658 "1"),
  (11, DocKind.stlv "fiscalReportCorrection" "Отчёт об изменении параметров регистрации" 658 "1"),
  (2, DocKind.stlv "openShift" "Отчёт об открытии смены" 440 "1"),
  (21, DocKind.stlv "currentStateReport" "Отчёт о текущем состоянии расчетов" 32768 "1"),
  (3, DocKind.stlv "receipt" "Кассовый чек" 32768 "1"),
  (31, DocKind.stlv "receiptCorrection" "Кассовый чек коррекции" 32768 "1"),
  (4, DocKind.stlv "bso" "Бланк строгой отчетности" 32768 "1"),
  (41, DocKind.stlv "bsoCorrection" "Бланк строгой отчетности коррекции" 32768 "1"),
  (5, DocKind.stlv "closeShift" "Отчёт о закрытии смены" 441 "1"),
  (6, DocKind.stlv "closeArchive" "Отчёт о закрытии фискального накопителя" 432 "1"),
  (7, DocKind.stlv "operatorAck(?)" "подтверждение оператора" 512 "1"),
  (1001, DocKind.byte "autoMode" "автоматический режим" none),
  (1002, DocKind.byte "offlineMode" "автономный режим" none),
  (1003, DocKind.str "<unknown-1003>" "адрес банковского агента" 256),
  (1004, DocKind.str "<unknown-1004>" "адрес банковского субагента" 256),
  (1005, DocKind.str "operatorAddress" "адрес оператора по переводу денежных средств" 256),
  (1006, DocKind.str "<unknown-1006>" "адрес платежного агента" 256),
  (1007, DocKind.str "<unknown-1007>" "адрес платежного субагента" 256),
  (1008, DocKind.str "buyerAddress" "адрес покупателя" 64),
  (1009, DocKind.str "retailPlaceAddress" "адрес (место) расчетов" 256),
  (1010, DocKind.vln "bankAgentRemuneration" "Размер вознаграждения банковского агента (субагента)" 8),
  (1011, DocKind.vln "paymentAgentRemuneration" "Размер вознаграждения платежного агента (субагента)" 8),
  (1012, DocKind.unix "dateTime" "дата, время"),
  (1013, DocKind.str "kktNumber" "Заводской номер ККТ" 20),
  (1014, DocKind.str "<unknown-1014>" "значение типа строка" 64),
  (1015, DocKind.u32 "<unknown-1015>" "значение типа целое"),
  (1016, DocKind.str "operatorInn" "ИНН оператора по переводу денежных средств" 12),
  (1017, DocKind.str "ofdInn" "ИНН ОФД" 12),
  (1018, DocKind.str "userInn" "ИНН пользователя" 12),
  (1019, DocKind.str "<unknown-1019>" "Информационное cообщение" 64),
  (1020, DocKind.vln "totalSum" "ИТОГ" 8),
  (1021, DocKind.str "operator" "Кассир" 64),
  (1022, DocKind.byte "<unknown-1022>" "код ответа ОФД" none),
  (1023, DocKind.fvln "quantity" "Количество" 8),
  (1024, DocKind.str "<unknown-1024>" "Наименование банковского агента" 64),
  (1025, DocKind.str "<unknown-1025>" "Наименование банковского субагента" 64),
  (1026, DocKind.str "operatorName" "Наименование оператора по переводу денежных средств" 64),
  (1027, DocKind.str "<unknown-1027>" "Наименование платежного агента" 64),
  (1028, DocKind.str "<unknown-1028>" "Наименование платежного субагента" 64),
  (1029, DocKind.str "<unknown-1029>" "наименование реквизита" 64),
  (1030, DocKind.str "name" "Наименование товара" 64),
  (1031, DocKind.vln "cashTotalSum" "Наличными" 8),
  (1032, DocKind.stlv "<unknown-1032>" "Налог" 33 "1"),
  (1033, DocKind.stlv "<unknown-1033>" "Налоги" 33 "1"),
  (1034, DocKind.fvln "markup" "Наценка (ставка)" 8),
  (1035, DocKind.vln "markupSum" "Наценка (сумма)" 8),
  (1036, DocKind.str "machineNumber" "Номер автомата" 12),
  (1037, DocKind.str "kktRegId" "Номер ККТ" 20),
  (1038, DocKind.u32 "shiftNumber" "Номер смены"),
  (1039, DocKind.str "<unknown-1039>" "Зарезервирован" 12),
  (1040, DocKind.u32 "fiscalDocumentNumber" "номер фискального документа"),
  (1041, DocKind.str "fiscalDriveNumber" "заводской номер фискального накопителя" 16),
  (1042, DocKind.u32 "requestNumber" "номер чека за смену"),
  (1043, DocKind.vln "sum" "Общая стоимость позиции с учетом скидок и наценок" 8),
  (1044, DocKind.str "bankAgentOperation" "Операция банковского агента" 24),
  (1045, DocKind.str "bankSubagentOperation" "операция банковского субагента" 24),
  (1046, DocKind.str "<unknown-1046>" "ОФД" 64),
  (1047, DocKind.stlv "<unknown-1047>" "параметр настройки" 144 "1"),
  (1048, DocKind.str "user" "наименование пользователя" 256),
  (1049, DocKind.str "<unknown-1049>" "Почтовый индекс" 6),
  (1050, DocKind.byte "fiscalDriveExhaustionSign" "Признак исчерпания ресурса ФН" none),
  (1051, DocKind.byte "fiscalDriveReplaceRequiredSign" "Признак необходимости срочной замены ФН" none),
  (1052, DocKind.byte "fiscalDriveMemoryExceededSign" "Признак переполнения памяти ФН" none),
  (1053, DocKind.byte "ofdResponseTimeoutSign" "Признак превышения времени ожидания ответа ОФД" none),
  (1054, DocKind.byte "operationType" "Признак расчета" none),
  (1055, DocKind.byte "taxationType" "применяемая система налогообложения" none),
  (1056, DocKind.byte "encryptionSign" "Признак шифрования" none),
  (1057, DocKind.byte "<unknown-1057>" "Применение платежными агентами (субагентами)" none),
  (1058, DocKind.byte "<unknown-1058>" "Применение банковскими агентами (субагентами)" none),
  (1059, DocKind.stlv "items" "наименование товара (реквизиты)" 328 "*"),
  (1060, DocKind.str "<unknown-1060>" "Сайт налогового органа" 64),
  (1061, DocKind.str "<unknown-1061>" "Сайт ОФД" 64),
  (1062, DocKind.byte "taxationType-2" "системы налогообложения" none),
  (1063, DocKind.fvln "discount" "Скидка (ставка)" 8),
  (1064, DocKind.vln "discountSum" "Скидка (сумма)" 8),
  (1065, DocKind.str "<unknown-1065>" "Сокращенное наименование налога" 10),
  (1066, DocKind.str "message" "Сообщение" 256),
  (1067, DocKind.stlv "<unknown-1067>" "Сообщение оператора для ККТ" 216 "1"),
  (1068, DocKind.stlv "<unknown-1068>" "сообщение оператора для ФН" 169 "1"),
  (1069, DocKind.stlv "message" "Сообщение оператору" 328 "*"),
  (1070, DocKind.fvln "<unknown-1070>" "Ставка налога" 5),
  (1071, DocKind.stlv "stornoItems" "сторно товара (реквизиты)" 328 "*"),
  (1072, DocKind.vln "<unknown-1072>" "Сумма налога" 8),
  (1073, DocKind.str "bankAgentPhone" "Телефон банковского агента" 19),
  (1074, DocKind.str "paymentAgentPhone" "Телефон платежного агента" 19),
  (1075, DocKind.str "operatorPhone" "Телефон оператора по переводу денежных средств" 19),
  (1076, DocKind.str "type" "Тип сообщения" 64),
  (1077, DocKind.vln "fiscalSign" "фискальный признак документа" 6),
  (1078, DocKind.bytearr "<unknown-1078>" "фискальный признак оператора" 8),
  (1079, DocKind.vln "price" "Цена за единицу" 8),
  (1080, DocKind.str "barcode" "Штриховой код EAN13" 16),
  (1081, DocKind.vln "ecashTotalSum" "форма расчета – электронными" 8),
  (1082, DocKind.str "bankSubagentPhone" "телефон банковского субагента" 19),
  (1083, DocKind.str "paymentSubagentPhone" "телефон платежного субагента" 19),
  (1084, DocKind.stlv "properties" "дополнительный реквизит" 328 "*"),
  (1085, DocKind.str "key" "наименование дополнительного реквизита" 64),
  (1086, DocKind.str "value" "значение дополнительного реквизита" 256),
  (1097, DocKind.u32 "notTransmittedDocumentsQuantity" "количество непереданных документов ФД"),
  (1098, DocKind.unix "notTransmittedDocumentsDateTime" "дата и время первого из непереданных ФД"),
  (1102, DocKind.vln "nds18" "НДС итога чека со ставкой 18%" 8),
  (1103, DocKind.vln "nds10" "НДС итога чека со ставкой 10%" 8),
  (1104, DocKind.vln "nds0" "НДС итога чека со ставкой 0%" 8),
  (1105, DocKind.vln "ndsNo" "НДС не облагается" 8),
  (1106, DocKind.vln "ndsCalculated18" "НДС итога чека с рассчитанной ставкой 18%" 8),
  (1107, DocKind.vln "ndsCalculated10" "НДС итога чека с рассчитанной ставкой 10%" 8),
  (1108, DocKind.byte "internetSign" "признак расчетов в сети Интернет" none),
  (1109, DocKind.byte "serviceSign" "признак работы в сфере услуг" none),
  (1110, DocKind.byte "bsoSign" "применяется для формирования БСО" none),
  (1111, DocKind.u32 "documentsQuantity" "количество фискальных документов за смену"),
  (1112, DocKind.stlv "modifiers" "скидка/наценка" 160 "*"),
  (1113, DocKind.str "discountName" "наименование скидки" 64),
  (1114, DocKind.str "markupName" "наименование наценки" 64),
  (1115, DocKind.str "addressToCheckFiscalSign" "адрес сайта для проверки ФП" 256),
  (1116, DocKind.u32 "notTransmittedDocumentNumber" "номер первого непереданного документа"),
  (1117, DocKind.str "senderAddress" "адрес отправителя" 64),
  (1118, DocKind.u32 "receiptsQuantity" "количество кассовых чеков за смену"),
  (1119, DocKind.str "operatorPhoneToReceive" "телефон оператора по приему платежей" 19)]

/-- Models `DOCUMENTS[ty]` (`KeyError` for an unknown tag becomes `none`). -/
def DOCUMENTS_get (ty : Nat) : Option DocKind :=
  (DOCUMENTS.find? (fun p => p.1 == ty)).map (·.2)

/-- Models `DOCS_BY_NAME = dict((doc.name, (ty, doc)) for ty, doc in DOCUMENTS.items())`,
as a lookup function: the dict is built in iteration order with a later
duplicated name overwriting an earlier one, so the fold keeps the last match. -/
def DOCS_BY_NAME (k : String) : Option (Nat × DocKind) :=
  DOCUMENTS.foldl (fun acc p => if p.2.name == k then some p else acc) none

/-- Models `DOCS_BY_DESC`, analogously keyed by description. -/
def DOCS_BY_DESC (k : String) : Option (Nat × DocKind) :=
  DOCUMENTS.foldl (fun acc p => if p.2.desc == k then some p else acc) none

namespace STLV

/-- Models `STLV.pack` returns its argument unchanged; `pack_json` then takes
`len(data)`, which fails on anything but a byte string. -/
def pack : PyVal → Option (List Nat)
  | .bytes b => some b
  | _ => none

end STLV

/-- Models `cls.pack(value)` dispatch used by `pack_json` for scalar values.
`VLN.pack` is the spec-modelled method (see `VLN.pack`); `FVLN.pack` takes a
float and is not modelled (no claim exercises it). -/
def DocKind.packScalar : DocKind → PyVal → Option (List Nat)
  | .byte _ _ _, v => Byte.pack v
  | .u32 _ _, v => U32.pack v
  | .str _ _ _, v =>
      match v with
      | .str s => StringCodec.pack s
      | _ => none
  | .bytearr _ _ _, v => ByteArrayCodec.pack v
  | .unix _ _, v => UnixTime.pack v
  | .vln _ _ m, v =>
      match v with
      | .int n => if 0 ≤ n then VLN.pack m n.toNat else none
      | _ => none
  | .fvln _ _ _, _ => none
  | .stlv _ _ _ _, v => STLV.pack v

mutual

/-- Models `pack_json(doc, docs)` of `ofd/protocol.py`: iterate the entries of the
mapping in order, resolve `(ty, cls) = docs[name]` (`KeyError` = `none`),
produce the payload through `pack_value`, and emit
`struct.pack('<HH', ty, len(data)) + data`, which fails when the tag or the
payload length does not fit a u16. -/
def pack_json (doc : List (String × PyVal)) (docs : String → Option (Nat × DocKind)) :
    Option (List Nat) :=
  match doc with
  | [] => some []
  | (name, value) :: rest =>
      match docs name with
      | none => none
      | some (ty, cls) =>
          match pack_value value cls with
          | none => none
          | some data =>
              if ty < 65536 ∧ data.length < 65536 then
                (pack_json rest docs).map
                  (fun tail => u16bytes ty ++ u16bytes data.length ++ data ++ tail)
              else none
termination_by sizeOf doc

/-- The value dispatch inside the `pack_json` loop: a `dict` value recurses
into `pack_json` and a `list` value concatenates the recursively packed
elements — both recursive calls use the *default* container `DOCS_BY_DESC`,
not the `docs` argument, exactly as in the source (`data = pack_json(value)`);
scalars go through `cls.pack`. -/
def pack_value (value : PyVal) (cls : DocKind) : Option (List Nat) :=
  match value with
  | .obj fields => pack_json fields DOCS_BY_DESC
  | .list items => pack_items items
  | v => cls.packScalar v
termination_by sizeOf value

/-- The `for item in value: data += pack_json(item)` loop of `pack_json`. -/
def pack_items (items : List PyVal) : Option (List Nat) :=
  match items with
  | [] => some []
  | item :: rest =>
      match pack_item item with
      | none => none
      | some d => (pack_items rest).map (fun tl => d ++ tl)
termination_by sizeOf items

/-- One element of a list value: `pack_json(item)` requires the element to be
a mapping (`item.items()` raises `AttributeError` otherwise). -/
def pack_item (item : PyVal) : Option (List Nat) :=
  match item with
  | .obj fields => pack_json fields DOCS_BY_DESC
  | _ => none
termination_by sizeOf item

end

/-- Models `result[name] = value` on an (insertion-ordered) Python dict:
overwrite in place when the key exists, append otherwise. -/
def dictSet (m : List (String × PyVal)) (k : String) (v : PyVal) :
    List (String × PyVal) :=
  if m.any (fun p => p.1 == k) then
    m.map (fun p => if p.1 == k then (k, v) else p)
  else m ++ [(k, v)]

/-- The `'*'`/`'+'` cardinality branch of `STLV.unpack`: create an empty list
on first occurrence, then `result[name].append(value)`; appending to an
existing non-list value is an `AttributeError`. -/
def dictAppend (m : List (String × PyVal)) (k : String) (v : PyVal) :
    Option (List (String × PyVal)) :=
  if m.any (fun p => p.1 == k) then
    m.mapM (fun p =>
      if p.1 == k then
        match p.2 with
        | .list l => some (k, PyVal.list (l ++ [v]))
        | _ => none
      else some p)
  else some (m ++ [(k, PyVal.list [v])])

namespace STLV

/-- The `while len(data) > 0` loop of `STLV.unpack`, with an explicit fuel
argument to make the recursion structural: every iteration consumes at least
four bytes and a nested container recurses into a strictly shorter slice, so
`fuel = data.length` (as supplied by `STLV.unpack`) can never run out; the
`(0, _ :: _)` arm is unreachable on those calls.  Reading the `(ty, length)`
header fails when fewer than four bytes remain (`struct.error`); the value
slice `data[4:4+length]` is Python slicing and silently clamps at the end of
the buffer. -/
def loop (fuel : Nat) (data : List Nat) (result : List (String × PyVal)) :
    Option (List (String × PyVal)) :=
  match fuel, data with
  | _, [] => some result
  | 0, _ :: _ => none
  | fuel + 1, d :: drest =>
      let data := d :: drest
      if data.length < 4 then none
      else
        let ty := u16le data 0
        let len := u16le data 2
        match DOCUMENTS_get ty with
        | none => none
        | some doc =>
            let slice := (data.drop 4).take len
            match (match doc with
                   | .byte _ _ _ => Byte.unpack slice
                   | .u32 _ _ => U32.unpack slice
                   | .str _ _ m => StringCodec.unpack m slice
                   | .bytearr _ _ m => ByteArrayCodec.unpack m slice
                   | .unix _ _ => UnixTime.unpack slice
                   | .vln _ _ m => VLN.unpack m slice
                   | .fvln _ _ m => FVLN.unpack m slice
                   | .stlv _ _ m _ =>
                       if slice.length > m then none
                       else (loop fuel slice []).map PyVal.obj) with
            | none => none
            | some v =>
                match (if doc.manyCard then dictAppend result doc.name v
                       else some (dictSet result doc.name v)) with
                | none => none
                | some r => loop fuel (data.drop (4 + len)) r

/-- Models `STLV.unpack` of `ofd/protocol.py`: reject bodies above `maxlen`, then
run the decode loop. -/
def unpack (maxlen : Nat) (data : List Nat) : Option (List (String × PyVal)) :=
  if data.length > maxlen then none else loop data.length data []

end STLV

/-- Session-level message header (30 bytes on the wire). -/
structure SessionHeader where
  pva : Nat
  fs_id : List Nat
  length : Nat
  flags : Nat
  crc : Nat
deriving Repr

/-- Models `SessionHeader.pack`: `struct.pack('<IHH16sHHH', MAGIC, PVERS, 0x0100, ...)`.
The magic `0x0A41082A` and `s_version = 0xA281` are class constants and the
`a_version` written to the wire is always the fixed `0x0100`
(`struct.unpack('<H', bytes.fromhex('0001'))`), regardless of the stored `pva`. -/
def SessionHeader.pack (h : SessionHeader) : List Nat :=
  [42, 8, 65, 10, 129, 162, 0, 1] ++ padTo 16 h.fs_id ++
    u16bytes h.length ++ u16bytes h.flags ++ u16bytes h.crc

/-- Models `SessionHeader.unpack_from`: require exactly 30 bytes
(`ValueError` otherwise — the wildcard arm), then check
`magic = 0x0A41082A = 172034090`, `s_version = 0xA281 = 41601` and
`a_version ∈ {0x0100, 0x0200} = {256, 512}` on the little-endian fields. -/
def SessionHeader.unpack_from (data : List Nat) : Option SessionHeader :=
  match data with
  | [b0, b1, b2, b3, b4, b5, b6, b7,
     f0, f1, f2, f3, f4, f5, f6, f7, f8, f9, f10, f11, f12, f13, f14, f15,
     l0, l1, g0, g1, c0, c1] =>
      if b0 + 256 * b1 + 65536 * b2 + 16777216 * b3 ≠ 172034090 then none
      else if b4 + 256 * b5 ≠ 41601 then none
      else if b6 + 256 * b7 = 256 ∨ b6 + 256 * b7 = 512 then
        some ⟨b6 + 256 * b7,
              [f0, f1, f2, f3, f4, f5, f6, f7, f8, f9, f10, f11, f12, f13, f14, f15],
              l0 + 256 * l1, g0 + 256 * g1, c0 + 256 * c1⟩
      else none
  | _ => none

/-- Container (frame) header (32 bytes on the wire); `msgtype = 0xA5` and
`version = 1` are class constants and are not stored per instance. -/
structure FrameHeader where
  length : Nat
  crc : Nat
  doctype : Nat
  extra1 : List Nat
  devnum : List Nat
  docnum : List Nat
  extra2 : List Nat
deriving Repr

/-- Models `FrameHeader.pack`: `struct.pack('<HHBBB2s8s3s12s', length, crc, 0xA5,
doctype, 1, extra1, devnum, docnum, extra2)`; fixed-size byte fields pad or
truncate (`Ns`), the `B` field is reduced mod 256. -/
def FrameHeader.pack (h : FrameHeader) : List Nat :=
  u16bytes h.length ++ u16bytes h.crc ++ [165, h.doctype % 256, 1] ++
    padTo 2 h.extra1 ++ padTo 8 h.devnum ++ padTo 3 h.docnum ++ padTo 12 h.extra2

/-- Models `FrameHeader.unpack_from`: require exactly 32 bytes, check
`msgtype = 0xA5 = 165` (byte 4) and `version = 1` (byte 6), then build
`FrameHeader(length, crc, doctype, extra1, devnum, docnum, extra2)`. -/
def FrameHeader.unpack_from (data : List Nat) : Option FrameHeader :=
  match data with
  | [b0, b1, b2, b3, b4, b5, b6, b7, b8, b9, b10, b11, b12, b13, b14, b15,
     b16, b17, b18, b19, b20, b21, b22, b23, b24, b25, b26, b27, b28, b29, b30, b31] =>
      if b4 ≠ 165 then none
      else if b6 ≠ 1 then none
      else some ⟨b0 + 256 * b1, b2 + 256 * b3, b5, [b7, b8],
                 [b9, b10, b11, b12, b13, b14, b15, b16], [b17, b18, b19],
                 [b20, b21, b22, b23, b24, b25, b26, b27, b28, b29, b30, b31]⟩
  | _ => none

/-- Models `FrameHeader.unpack_from_raw`: the 28-byte tail variant
(`'<BBB2s8s3s12s'`, no `length`/`crc`), which *also* checks
`msgtype = 0xA5` (byte 0) and `version = 1` (byte 2); `length` and `crc`
are set to 0. -/
def FrameHeader.unpack_from_raw (data : List Nat) : Option FrameHeader :=
  match data with
  | [b0, b1, b2, b3, b4, b5, b6, b7, b8, b9, b10, b11, b12, b13, b14, b15,
     b16, b17, b18, b19, b20, b21, b22, b23, b24, b25, b26, b27] =>
      if b0 ≠ 165 then none
      else if b2 ≠ 1 then none
      else some ⟨0, 0, b1, [b3, b4],
                 [b5, b6, b7, b8, b9, b10, b11, b12], [b13, b14, b15],
                 [b16, b17, b18, b19, b20, b21, b22, b23, b24, b25, b26, b27]⟩
  | _ => none

/-- One update step of the `crc-ccitt-false` bit loop
(polynomial `0x1021 = 4129`, width 16, not reflected): shift left and XOR in
the polynomial exactly when bit 15 (`crc & 0x8000`) was set — the factor
`(c >>> 15) &&& 1` is 1 precisely in that case, so this is the branch-free
form of `if c & 0x8000 then (c << 1) ^ 0x1021 else c << 1`, masked to 16
bits. -/
def crc16_round (c : Nat) : Nat :=
  ((c <<< 1) ^^^ (4129 * ((c >>> 15) &&& 1))) &&& 65535

def crc16_rounds : Nat → Nat → Nat
  | 0, c => c
  | n + 1, c => crc16_rounds n (crc16_round c)

/-- Absorb one input byte into the running CRC. -/
def crc16_step (c b : Nat) : Nat := crc16_rounds 8 (c ^^^ (b <<< 8))

/-- Models `crcmod.predefined.mkPredefinedCrcFun('crc-ccitt-false')`: CRC-16 with
polynomial `0x1021`, initial value `0xFFFF`, no reflection, xorout `0x0000`. -/
def crc_ccitt_false (data : List Nat) : Nat :=
  data.foldl crc16_step 65535

/-- Models `FrameHeader.recalculate_crc`: the checksum is taken over
`pack[:2] + pack[4:] + body` (the two `length` bytes, everything after the
`crc` field, then the body) and written into the `crc` field. -/
def FrameHeader.recalculate_crc (h : FrameHeader) (body : List Nat) : FrameHeader :=
  { h with crc := crc_ccitt_false (h.pack.take 2 ++ h.pack.drop 4 ++ body) }

namespace DocCodes

/-- Modelled from the spec: the `DocCodes` enumeration is imported by
`example/mock_ofd.py` from `ofd.protocol` but is not part of
`src/ofd/protocol.py`; the spec (§4.7, §6) and registry tag 7
(`operatorAck`) fix the operator-acknowledgment document code at 7. -/
def OPERATOR_ACK : Nat := 7

end DocCodes

/-- The response frame header built by `create_response` of
`example/mock_ofd.py`: `FrameHeader(length=32+len(message_raw), crc=0,
doctype=DocCodes.OPERATOR_ACK, devnum=in_header.devnum,
docnum=String.pack(str(fiscalDocumentNumber)), extra1=in_header.extra1,
extra2=String.pack('0'.rjust(12)))` followed by
`out_header.recalculate_crc(message_raw)`.  The packed STLV body
`message_raw` is passed in as a parameter (in the source it is produced by
`pack_json` over the registry of the unabridged `ofd.protocol` module, which
is not part of `src/`). -/
def create_response_header (fdn : Int) (in_header : FrameHeader)
    (message_raw : List Nat) : Option FrameHeader :=
  match StringCodec.pack (toString fdn), StringCodec.pack "           0" with
  | some dn, some e2 =>
      some ((FrameHeader.mk (32 + message_raw.length) 0 DocCodes.OPERATOR_ACK
               in_header.extra1 in_header.devnum dn e2).recalculate_crc message_raw)
  | _, _ => none

/-- The 30-byte session-header buffer of `TestSessionHeader.test_pack_unpack`. -/
def c6buf : List Nat := [
  42, 8, 65, 10, 129, 162, 0, 1, 57, 57, 57, 57, 48, 55, 56, 57,
  53, 48, 32, 32, 32, 32, 32, 32, 49, 1, 20, 0, 0, 0]

/-- The 32-byte frame-header buffer of `TestFrameHeader.test_unpack`. -/
def c9frame : List Nat := [
  49, 1, 3, 236, 165, 1, 1, 16, 9, 153, 153, 7, 137, 18, 52, 86,
  127, 0, 0, 1, 0, 35, 9, 130, 196, 0, 0, 1, 0, 2, 1, 7]

/-- Models `c9frame` with the `msgtype` byte (offset 4) corrupted away from `0xA5`. -/
def c9frameBad : List Nat := c9frame.set 4 0

/-- The tail 28 bytes of `c9frameBad` (input shape of `unpack_from_raw`). -/
def c9rawBad : List Nat := c9frameBad.drop 4

/-- The `SessionHeader` value decoded from `c6buf` (cf. `test_unpack`). -/
def c6hdr : SessionHeader :=
  ⟨256, [57, 57, 57, 57, 48, 55, 56, 57, 53, 48, 32, 32, 32, 32, 32, 32], 305, 20, 0⟩

/-- The frame header of `test_update_crc` (`crc = 0` before recomputation). -/
def c3header : FrameHeader :=
  ⟨305, 0, 1, [16, 9], [153, 153, 7, 137, 18, 52, 86, 127], [0, 0, 1],
   [0, 35, 9, 130, 196, 0, 0, 1, 0, 2, 1, 7]⟩

/-- The fiscalReport body of `test_update_crc` (273 bytes). -/
def c3body : List Nat := [
  1, 0, 3, 1, 17, 4, 16, 0, 57, 57, 57, 57, 48, 55, 56, 57,
  49, 50, 51, 52, 53, 54, 55, 32, 13, 4, 20, 0, 49, 50, 48, 48,
  48, 48, 49, 51, 48, 48, 48, 48, 32, 32, 32, 32, 32, 32, 32, 32,
  250, 3, 12, 0, 49, 49, 50, 50, 51, 51, 52, 52, 53, 53, 54, 54,
  16, 4, 4, 0, 1, 0, 0, 0, 244, 3, 4, 0, 40, 84, 14, 87,
  53, 4, 6, 0, 33, 4, 28, 107, 129, 164, 233, 3, 1, 0, 0, 234,
  3, 1, 0, 0, 32, 4, 1, 0, 0, 38, 4, 1, 0, 1, 24, 4,
  9, 0, 142, 142, 142, 32, 34, 140, 140, 140, 34, 33, 4, 1, 0, 0,
  34, 4, 1, 0, 0, 241, 3, 38, 0, 140, 174, 225, 170, 162, 160, 44,
  32, 135, 165, 171, 165, 173, 235, 169, 32, 175, 224, 174, 225, 175, 165, 170,
  226, 44, 32, 164, 46, 54, 54, 32, 170, 174, 224, 175, 46, 32, 50, 22,
  4, 8, 0, 142, 148, 132, 45, 226, 165, 225, 226, 37, 4, 10, 0, 119,
  119, 119, 46, 111, 102, 100, 46, 114, 117, 36, 4, 12, 0, 119, 119, 119,
  46, 110, 97, 108, 111, 103, 46, 114, 117, 25, 4, 6, 0, 49, 49, 49,
  50, 51, 52, 253, 3, 18, 0, 145, 136, 145, 46, 32, 128, 132, 140, 136,
  141, 136, 145, 146, 144, 128, 146, 142, 144, 245, 3, 10, 0, 48, 54, 50,
  48, 48, 48, 48, 48, 48, 49, 129, 6, 115, 252, 163, 75, 40, 114, 0,
  0]

/-- The decoded frame header of `TestFrameHeader.test_unpack`, used as the
incoming header of `create_response`. -/
def c7in : FrameHeader :=
  ⟨305, 60419, 1, [16, 9], [153, 153, 7, 137, 18, 52, 86, 127], [0, 0, 1],
   [0, 35, 9, 130, 196, 0, 0, 1, 0, 2, 1, 7]⟩

set_option maxRecDepth 8000

/-! Helper lemmas: one-step equations for the well-founded `pack_json`
family, used to evaluate concrete documents without deep kernel reduction. -/

theorem pack_json_nil (docs : String → Option (Nat × DocKind)) :
    pack_json [] docs = some [] := by
  simp [pack_json]

theorem pack_json_cons (docs : String → Option (Nat × DocKind)) (name : String)
    (value : PyVal) (rest : List (String × PyVal)) (ty : Nat) (cls : DocKind)
    (data tail : List Nat)
    (h1 : docs name = some (ty, cls)) (h2 : pack_value value cls = some data)
    (h3 : ty < 65536) (h4 : data.length < 65536)
    (h5 : pack_json rest docs = some tail) :
    pack_json ((name, value) :: rest) docs
      = some (u16bytes ty ++ u16bytes data.length ++ data ++ tail) := by
  simp [pack_json, h1, h2, h3, h4, h5]

theorem pack_value_obj (fields : List (String × PyVal)) (cls : DocKind) :
    pack_value (PyVal.obj fields) cls = pack_json fields DOCS_BY_DESC := by
  simp [pack_value]

theorem pack_value_list (items : List PyVal) (cls : DocKind) :
    pack_value (PyVal.list items) cls = pack_items items := by
  simp [pack_value]

theorem pack_items_nil : pack_items [] = some [] := by
  simp [pack_items]

theorem pack_items_cons (item : PyVal) (rest : List PyVal) (d tl : List Nat)
    (h1 : pack_item item = some d) (h2 : pack_items rest = some tl) :
    pack_items (item :: rest) = some (d ++ tl) := by
  simp [pack_items, h1, h2]

theorem pack_item_obj (fields : List (String × PyVal)) :
    pack_item (PyVal.obj fields) = pack_json fields DOCS_BY_DESC := by
  simp [pack_item]

/-- Registry lookups used by the concrete encode scenarios (tags 1047
`параметр настройки`, 1015 `значение типа целое`, 1055, and the document
containers 1 and 3), each a plain evaluation of the registry. -/
theorem lookup_1047 : DOCS_BY_DESC "параметр настройки" = some (1047, DocKind.stlv "<unknown-1047>" "параметр настройки" 144 "1") := rfl

theorem lookup_1015 : DOCS_BY_DESC "значение типа целое" = some (1015, DocKind.u32 "<unknown-1015>" "значение типа целое") := rfl

theorem lookup_tax_desc : DOCS_BY_DESC "применяемая система налогообложения" = some (1055, DocKind.byte "taxationType" "применяемая система налогообложения" none) := rfl

theorem lookup_doc1 : DOCS_BY_DESC "Отчёт о фискализации" = some (1, DocKind.stlv "fiscalReport" "Отчёт о фискализации" 658 "1") := rfl

theorem lookup_doc3 : DOCS_BY_DESC "Кассовый чек" = some (3, DocKind.stlv "receipt" "Кассовый чек" 32768 "1") := rfl

/-- Packing the single leaf `{<1015>: 42}` (cf. `test_pack_nested_array_from_json`). -/
theorem pack_leaf_42 : pack_json [("значение типа целое", PyVal.int 42)] DOCS_BY_DESC
    = some [247, 3, 4, 0, 42, 0, 0, 0] := by
  simp [pack_json, pack_value, lookup_1015, DocKind.packScalar, U32.pack, u32bytes, u16bytes]

/-- Packing the single leaf `{<1015>: 7}`. -/
theorem pack_leaf_7 : pack_json [("значение типа целое", PyVal.int 7)] DOCS_BY_DESC
    = some [247, 3, 4, 0, 7, 0, 0, 0] := by
  simp [pack_json, pack_value, lookup_1015, DocKind.packScalar, U32.pack, u32bytes, u16bytes]

/-- Packing the single leaf `{taxationType (by description): 1}`. -/
theorem pack_leaf_tax : pack_json [("применяемая система налогообложения", PyVal.int 1)] DOCS_BY_DESC
    = some [31, 4, 1, 0, 1] := by
  simp [pack_json, pack_value, lookup_tax_desc, DocKind.packScalar, Byte.pack, u16bytes]

/-- A two-element array document: `{<1047-desc>: [{<1015-desc>: 42}, {<1015-desc>: 7}]}`. -/
def c1doc : List (String × PyVal) :=
  [("параметр настройки", PyVal.list [PyVal.obj [("значение типа целое", PyVal.int 42)],
                           PyVal.obj [("значение типа целое", PyVal.int 7)]])]

/-- What `pack_json` actually produces for `c1doc`: one outer
`⟨1047, 16⟩` header around the concatenated elements. -/
def c1actual : List Nat :=
  [23, 4, 16, 0, 247, 3, 4, 0, 42, 0, 0, 0, 247, 3, 4, 0, 7, 0, 0, 0]

/-- What the claim predicts for `c1doc`: one `⟨1047, 8⟩` triple per element. -/
def c1claimed : List Nat :=
  [23, 4, 8, 0, 247, 3, 4, 0, 42, 0, 0, 0, 23, 4, 8, 0, 247, 3, 4, 0, 7, 0, 0, 0]

/-- C1 (counterexample): for the two-element list `c1doc`, `pack_json` emits a
single outer `⟨1047, 16⟩` tag-length header wrapping both packed elements —
not two separate `⟨1047, 8⟩` triples as the claim states. -/
theorem c1_counterexample :
    pack_json c1doc DOCS_BY_DESC = some c1actual ∧ c1actual ≠ c1claimed := by
  constructor
  · have hi1 : pack_item (PyVal.obj [("значение типа целое", PyVal.int 42)])
        = some [247, 3, 4, 0, 42, 0, 0, 0] :=
      (pack_item_obj _).trans pack_leaf_42
    have hi2 : pack_item (PyVal.obj [("значение типа целое", PyVal.int 7)])
        = some [247, 3, 4, 0, 7, 0, 0, 0] :=
      (pack_item_obj _).trans pack_leaf_7
    have hitems := pack_items_cons _ _ _ _ hi1 (pack_items_cons _ _ _ _ hi2 pack_items_nil)
    have hv : pack_value (PyVal.list [PyVal.obj [("значение типа целое", PyVal.int 42)],
        PyVal.obj [("значение типа целое", PyVal.int 7)]]) (DocKind.stlv "<unknown-1047>" "параметр настройки" 144 "1")
        = some [247, 3, 4, 0, 42, 0, 0, 0, 247, 3, 4, 0, 7, 0, 0, 0] :=
      (pack_value_list _ _).trans (hitems.trans (by decide))
    have := pack_json_cons DOCS_BY_DESC "параметр настройки" _ [] 1047 _ _ []
      lookup_1047 hv (by decide) (by decide) (pack_json_nil _)
    exact this.trans (by decide)
  · decide

/-- C1 (amended): when the value under `name` is a list, `pack_json` emits
exactly one `⟨tag, length⟩` header — the tag resolved from `name` via the
`docs` index — whose payload is the concatenation `payload` of the packed
elements (an element fails unless it is itself a mapping). -/
theorem c1_list_single_header (docs : String → Option (Nat × DocKind))
    (name : String) (items : List PyVal) (ty : Nat) (cls : DocKind)
    (payload : List Nat)
    (h1 : docs name = some (ty, cls)) (h2 : pack_items items = some payload)
    (h3 : ty < 65536) (h4 : payload.length < 65536) :
    pack_json [(name, PyVal.list items)] docs
      = some (u16bytes ty ++ u16bytes payload.length ++ payload) := by
  have h2v : pack_value (PyVal.list items) cls = some payload :=
    (pack_value_list items cls).trans h2
  have := pack_json_cons docs name (PyVal.list items) [] ty cls payload []
    h1 h2v h3 h4 (pack_json_nil docs)
  simpa using this

/-- C1 (witness): the single-element array of `test_pack_nested_array_from_json`
encodes as `⟨1047, 8⟩ ⟨1015, 4, 42LE⟩`. -/
theorem c1_witness :
    pack_json [("параметр настройки", PyVal.list [PyVal.obj [("значение типа целое", PyVal.int 42)]])]
      DOCS_BY_DESC = some [23, 4, 8, 0, 247, 3, 4, 0, 42, 0, 0, 0] := by
  have hi1 : pack_item (PyVal.obj [("значение типа целое", PyVal.int 42)])
      = some [247, 3, 4, 0, 42, 0, 0, 0] :=
    (pack_item_obj _).trans pack_leaf_42
  have hitems : pack_items [PyVal.obj [("значение типа целое", PyVal.int 42)]]
      = some [247, 3, 4, 0, 42, 0, 0, 0] :=
    (pack_items_cons _ _ _ _ hi1 pack_items_nil).trans (by decide)
  have := c1_list_single_header DOCS_BY_DESC "параметр настройки"
    [PyVal.obj [("значение типа целое", PyVal.int 42)]] 1047
    (DocKind.stlv "<unknown-1047>" "параметр настройки" 144 "1")
    [247, 3, 4, 0, 42, 0, 0, 0] lookup_1047 hitems (by decide) (by decide)
  exact this.trans (by decide)

/-- C2 (counterexample): there is no parent-context resolution.  Under parent
tag 1 (`fiscalReport`) a body containing the `taxationType` field packs to tag
1055 bytes `⟨31, 4⟩`, not tag 1062 `⟨38, 4⟩` as the claim states — and going
through `DOCS_BY_NAME` with the logical child name `taxationType` errors out
entirely, because the nested recursive call always uses `DOCS_BY_DESC`, where
`taxationType` is not a key. -/
theorem c2_counterexample :
    pack_json [("Отчёт о фискализации", PyVal.obj [("применяемая система налогообложения", PyVal.int 1)])] DOCS_BY_DESC
        = some [1, 0, 5, 0, 31, 4, 1, 0, 1] ∧
    ([1, 0, 5, 0, 31, 4, 1, 0, 1] : List Nat) ≠ [1, 0, 5, 0, 38, 4, 1, 0, 1] ∧
    pack_json [("fiscalReport", PyVal.obj [("taxationType", PyVal.int 1)])]
        DOCS_BY_NAME = none := by
  refine ⟨?_, by decide, ?_⟩
  · have hv : pack_value (PyVal.obj [("применяемая система налогообложения", PyVal.int 1)])
        (DocKind.stlv "fiscalReport" "Отчёт о фискализации" 658 "1") = some [31, 4, 1, 0, 1] :=
      (pack_value_obj _ _).trans pack_leaf_tax
    have := pack_json_cons DOCS_BY_DESC "Отчёт о фискализации" _ [] 1 _ _ []
      lookup_doc1 hv (by decide) (by decide) (pack_json_nil _)
    exact this.trans (by decide)
  · have h1 : DOCS_BY_NAME "fiscalReport"
        = some (1, DocKind.stlv "fiscalReport" "Отчёт о фискализации" 658 "1") := rfl
    have h2 : DOCS_BY_DESC "taxationType" = none := rfl
    simp [pack_json, pack_value, h1, h2]

/-- C2 (amended): tag selection during encode is independent of the parent:
`pack_json` threads no parent context, and a nested mapping is always encoded
with the default `DOCS_BY_DESC` index.  For *every* parent entry `pname` of the
registry, the body `{taxationType (by description): 1}` packs to inner tag
1055; and the name index `DOCS_BY_NAME` resolves the name `taxationType` to
1055 unconditionally (1062 is registered under the distinct name
`taxationType-2`). -/
theorem c2_name_resolution (pname : String) (ptag : Nat) (cls : DocKind)
    (h1 : DOCS_BY_DESC pname = some (ptag, cls)) (h2 : ptag < 65536) :
    pack_json [(pname, PyVal.obj [("применяемая система налогообложения", PyVal.int 1)])] DOCS_BY_DESC
        = some (u16bytes ptag ++ [5, 0, 31, 4, 1, 0, 1]) ∧
    DOCS_BY_NAME "taxationType"
        = some (1055, DocKind.byte "taxationType" "применяемая система налогообложения" none) ∧
    DOCS_BY_NAME "taxationType-2"
        = some (1062, DocKind.byte "taxationType-2" "системы налогообложения" none) := by
  refine ⟨?_, rfl, rfl⟩
  have hv : pack_value (PyVal.obj [("применяемая система налогообложения", PyVal.int 1)]) cls
      = some [31, 4, 1, 0, 1] :=
    (pack_value_obj _ _).trans pack_leaf_tax
  have := pack_json_cons DOCS_BY_DESC pname _ [] ptag cls [31, 4, 1, 0, 1] []
    h1 hv h2 (by decide) (pack_json_nil _)
  simpa [u16bytes] using this

/-- C2 (witness): under parent tag 3 (`receipt`, by description) the
`taxationType` body selects tag 1055, exactly as under parent tag 1. -/
theorem c2_witness :
    pack_json [("Кассовый чек", PyVal.obj [("применяемая система налогообложения", PyVal.int 1)])] DOCS_BY_DESC
        = some [3, 0, 5, 0, 31, 4, 1, 0, 1] := by
  have := (c2_name_resolution "Кассовый чек" 3
    (DocKind.stlv "receipt" "Кассовый чек" 32768 "1") lookup_doc3 (by decide)).1
  exact this.trans (by decide)

/-- C3 (counterexample): the fiscalReport body of `test_update_crc` contains
273 bytes, not 308 as the claim describes it. -/
theorem c3_body_length : c3body.length = 273 ∧ c3body.length ≠ 308 := by
  constructor <;> decide

/-- C3 (amended): `recalculate_crc` stores in the `crc` field the
CRC-CCITT-FALSE checksum of `pack[:2] ∥ pack[4:] ∥ body` — the packed
header's length field, everything after its crc field, then the body — and on
the `test_update_crc` header (crc = 0) with its 273-byte fiscalReport body the
result is 60419. -/
theorem c3_recalculate_crc :
    (∀ (h : FrameHeader) (body : List Nat),
      (h.recalculate_crc body).crc
        = crc_ccitt_false (h.pack.take 2 ++ h.pack.drop 4 ++ body)) ∧
    (c3header.recalculate_crc c3body).crc = 60419 := by
  have hgen : ∀ (h : FrameHeader) (body : List Nat),
      (h.recalculate_crc body).crc
        = crc_ccitt_false (h.pack.take 2 ++ h.pack.drop 4 ++ body) :=
    fun h body => rfl
  refine ⟨hgen, ?_⟩
  rw [hgen]
  have hconcat : c3header.pack.take 2 ++ c3header.pack.drop 4 ++ c3body
      = [49, 1, 165, 1, 1, 16, 9, 153, 153, 7, 137, 18, 52, 86, 127, 0, 0, 1, 0, 35, 9] ++
        [130, 196, 0, 0, 1, 0, 2, 1, 7, 1, 0, 3, 1, 17, 4, 16, 0, 57, 57, 57, 57] ++
        [48, 55, 56, 57, 49, 50, 51, 52, 53, 54, 55, 32, 13, 4, 20, 0, 49, 50, 48, 48, 48] ++
        [48, 49, 51, 48, 48, 48, 48, 32, 32, 32, 32, 32, 32, 32, 32, 250, 3, 12, 0, 49, 49] ++
        [50, 50, 51, 51, 52, 52, 53, 53, 54, 54, 16, 4, 4, 0, 1, 0, 0, 0, 244, 3, 4] ++
        [0, 40, 84, 14, 87, 53, 4, 6, 0, 33, 4, 28, 107, 129, 164, 233, 3, 1, 0, 0, 234] ++
        [3, 1, 0, 0, 32, 4, 1, 0, 0, 38, 4, 1, 0, 1, 24, 4, 9, 0, 142, 142, 142] ++
        [32, 34, 140, 140, 140, 34, 33, 4, 1, 0, 0, 34, 4, 1, 0, 0, 241, 3, 38, 0, 140] ++
        [174, 225, 170, 162, 160, 44, 32, 135, 165, 171, 165, 173, 235, 169, 32, 175, 224, 174, 225, 175, 165] ++
        [170, 226, 44, 32, 164, 46, 54, 54, 32, 170, 174, 224, 175, 46, 32, 50, 22, 4, 8, 0, 142] ++
        [148, 132, 45, 226, 165, 225, 226, 37, 4, 10, 0, 119, 119, 119, 46, 111, 102, 100, 46, 114, 117] ++
        [36, 4, 12, 0, 119, 119, 119, 46, 110, 97, 108, 111, 103, 46, 114, 117, 25, 4, 6, 0, 49] ++
        [49, 49, 50, 51, 52, 253, 3, 18, 0, 145, 136, 145, 46, 32, 128, 132, 140, 136, 141, 136, 145] ++
        [146, 144, 128, 146, 142, 144, 245, 3, 10, 0, 48, 54, 50, 48, 48, 48, 48, 48, 48, 49, 129] ++
        [6, 115, 252, 163, 75, 40, 114, 0, 0] := by decide
  have h0 : List.foldl crc16_step 65535 [49, 1, 165, 1, 1, 16, 9, 153, 153, 7, 137, 18, 52, 86, 127, 0, 0, 1, 0, 35, 9] = 48783 := rfl
  have h1 : List.foldl crc16_step 48783 [130, 196, 0, 0, 1, 0, 2, 1, 7, 1, 0, 3, 1, 17, 4, 16, 0, 57, 57, 57, 57] = 64905 := rfl
  have h2 : List.foldl crc16_step 64905 [48, 55, 56, 57, 49, 50, 51, 52, 53, 54, 55, 32, 13, 4, 20, 0, 49, 50, 48, 48, 48] = 12350 := rfl
  have h3 : List.foldl crc16_step 12350 [48, 49, 51, 48, 48, 48, 48, 32, 32, 32, 32, 32, 32, 32, 32, 250, 3, 12, 0, 49, 49] = 56702 := rfl
  have h4 : List.foldl crc16_step 56702 [50, 50, 51, 51, 52, 52, 53, 53, 54, 54, 16, 4, 4, 0, 1, 0, 0, 0, 244, 3, 4] = 47787 := rfl
  have h5 : List.foldl crc16_step 47787 [0, 40, 84, 14, 87, 53, 4, 6, 0, 33, 4, 28, 107, 129, 164, 233, 3, 1, 0, 0, 234] = 32387 := rfl
  have h6 : List.foldl crc16_step 32387 [3, 1, 0, 0, 32, 4, 1, 0, 0, 38, 4, 1, 0, 1, 24, 4, 9, 0, 142, 142, 142] = 34884 := rfl
  have h7 : List.foldl crc16_step 34884 [32, 34, 140, 140, 140, 34, 33, 4, 1, 0, 0, 34, 4, 1, 0, 0, 241, 3, 38, 0, 140] = 25022 := rfl
  have h8 : List.foldl crc16_step 25022 [174, 225, 170, 162, 160, 44, 32, 135, 165, 171, 165, 173, 235, 169, 32, 175, 224, 174, 225, 175, 165] = 41685 := rfl
  have h9 : List.foldl crc16_step 41685 [170, 226, 44, 32, 164, 46, 54, 54, 32, 170, 174, 224, 175, 46, 32, 50, 22, 4, 8, 0, 142] = 42222 := rfl
  have h10 : List.foldl crc16_step 42222 [148, 132, 45, 226, 165, 225, 226, 37, 4, 10, 0, 119, 119, 119, 46, 111, 102, 100, 46, 114, 117] = 60175 := rfl
  have h11 : List.foldl crc16_step 60175 [36, 4, 12, 0, 119, 119, 119, 46, 110, 97, 108, 111, 103, 46, 114, 117, 25, 4, 6, 0, 49] = 31443 := rfl
  have h12 : List.foldl crc16_step 31443 [49, 49, 50, 51, 52, 253, 3, 18, 0, 145, 136, 145, 46, 32, 128, 132, 140, 136, 141, 136, 145] = 46102 := rfl
  have h13 : List.foldl crc16_step 46102 [146, 144, 128, 146, 142, 144, 245, 3, 10, 0, 48, 54, 50, 48, 48, 48, 48, 48, 48, 49, 129] = 43609 := rfl
  have h14 : List.foldl crc16_step 43609 [6, 115, 252, 163, 75, 40, 114, 0, 0] = 60419 := rfl
  rw [hconcat]
  simp only [crc_ccitt_false, List.foldl_append]
  rw [h0, h1, h2, h3, h4, h5, h6, h7, h8, h9, h10, h11, h12, h13, h14]

/-- C4 (counterexample): a four-byte buffer whose TLV header declares tag 1020
(`totalSum`, a VLN) with length 10 but carries zero value bytes is *accepted*
by `STLV.unpack`: Python's slice `data[4:4+length]` clamps to the end of the
buffer, the empty slice zero-pads to the VLN value 0, and decode returns the
mapping `{totalSum: 0}` instead of failing. -/
theorem c4_counterexample :
    STLV.unpack 32768 [252, 3, 10, 0] = some [("totalSum", PyVal.int 0)] ∧
    u16le [252, 3, 10, 0] 2 = 10 ∧ ([252, 3, 10, 0].drop 4).length = 0 := by
  exact ⟨rfl, rfl, rfl⟩

/-- C4 (amended): an inner `length` field that extends past the end of the
buffer does not make STLV decode fail; the value slice is clamped by Python
slicing (decode fails only when fewer than four header bytes remain or the
truncated slice itself fails its kind's decoder).  Whatever 16-bit length
`lo + 256 * hi` the final TLV header of the buffer declares, `⟨1020, len⟩`
with no payload bytes decodes to `{totalSum: 0}`. -/
theorem c4_overrun_clamped (lo hi : Nat) :
    STLV.unpack 32768 [252, 3, lo, hi] = some [("totalSum", PyVal.int 0)] := by
  have hget : DOCUMENTS_get 1020 = some (DocKind.vln "totalSum" "ИТОГ" 8) := rfl
  simp [STLV.unpack, STLV.loop, u16le, hget, VLN.unpack, leValue, dictSet,
    DocKind.manyCard, DocKind.name, List.drop_eq_nil_of_le]

/-- C5: `VLN.pack` (modelled from the spec; exercised by `TestVLN`) with
`maxlen = 6` packs `87892227523633` to the six bytes `31 04 00 01 F0 4F`
(the two truncated trailing bytes are zero), the source's `VLN.unpack`
restores the value, and `87892227523633222`, whose 8-byte form has non-zero
bytes beyond position 6, fails with overflow. -/
theorem c5_vln_roundtrip :
    VLN.pack 6 87892227523633 = some [49, 4, 0, 1, 240, 79] ∧
    VLN.unpack 6 [49, 4, 0, 1, 240, 79] = some (PyVal.int 87892227523633) ∧
    VLN.pack 6 87892227523633222 = none := by
  exact ⟨rfl, rfl, rfl⟩

/-- C6: `SessionHeader.pack` always stamps `s_version = 0xA281` (wire bytes
`81 A2`) and `a_version = 0x0100` (wire bytes `00 01`) regardless of the
retained `pva`; consequently, for every 30-byte buffer `S` of bytes that
passes `unpack_from` validation, `pack (unpack_from S)` equals `S` with the
`a_version` field (offsets 6–7) re-stamped to `0x0100`, and equals `S`
exactly when `S`'s `a_version` was already `0x0100`. -/
theorem c6_session_repack (S : List Nat) (h : SessionHeader)
    (hb : ∀ b ∈ S, b < 256) (hu : SessionHeader.unpack_from S = some h) :
    h.pack = S.take 6 ++ [0, 1] ++ S.drop 8 ∧
    (u16le S 6 = 256 → h.pack = S) := by
  unfold SessionHeader.unpack_from at hu
  split at hu
  case h_2 => exact absurd hu (by simp)
  case h_1 b0 b1 b2 b3 b4 b5 b6 b7 f0 f1 f2 f3 f4 f5 f6 f7 f8 f9 f10 f11 f12
      f13 f14 f15 l0 l1 g0 g1 c0 c1 =>
    simp only [List.mem_cons, List.not_mem_nil, or_false, forall_eq_or_imp,
      forall_eq] at hb
    obtain ⟨B0, B1, B2, B3, B4, B5, B6, B7, F0, F1, F2, F3, F4, F5, F6, F7,
      F8, F9, F10, F11, F12, F13, F14, F15, L0, L1, G0, G1, C0, C1⟩ := hb
    split_ifs at hu with hm hv ha
    obtain rfl : SessionHeader.mk (b6 + 256 * b7)
        [f0, f1, f2, f3, f4, f5, f6, f7, f8, f9, f10, f11, f12, f13, f14, f15]
        (l0 + 256 * l1) (g0 + 256 * g1) (c0 + 256 * c1) = h := by
      injection hu
    constructor
    · simp only [SessionHeader.pack, padTo, u16bytes, List.take_succ_cons,
        List.take_zero, List.drop_succ_cons, List.drop_zero, List.length_cons,
        List.length_nil, List.cons_append, List.nil_append, List.append_nil,
        List.cons.injEq, Nat.reduceAdd, Nat.sub_self, List.replicate,
        and_true, true_and]
      omega
    · intro hpva
      simp only [u16le, List.getD, List.get?, Option.getD_some] at hpva
      simp only [SessionHeader.pack, padTo, u16bytes, List.take_succ_cons,
        List.take_zero, List.drop_succ_cons, List.drop_zero, List.length_cons,
        List.length_nil, List.cons_append, List.nil_append, List.append_nil,
        List.cons.injEq, Nat.reduceAdd, Nat.sub_self, List.replicate,
        and_true, true_and]
      omega

/-- C6 (witness): the session-header buffer of `test_pack_unpack` (whose
`a_version` bytes are already `00 01`) round-trips exactly. -/
theorem c6_witness :
    SessionHeader.unpack_from c6buf = some c6hdr ∧
    SessionHeader.pack c6hdr = c6buf := by
  have hu : SessionHeader.unpack_from c6buf = some c6hdr := by
    simp [SessionHeader.unpack_from, c6buf, c6hdr]
  exact ⟨hu, (c6_session_repack c6buf c6hdr (by decide) hu).2 (by decide)⟩

/-- C7: evaluating the acknowledgment builder at the failing input
`fiscalDocumentNumber = 1` (incoming header from `test_unpack`, empty packed
body): `doctype`, `devnum`, `extra1` and `extra2` come out exactly as the
claim states, but the `docnum` field is `String.pack(str(1)) = b"1" = [49]` —
the CP866 decimal string, padded on the wire to `49 00 00` — and not the
3-byte big-endian encoding `00 00 01` of 1. -/
theorem c7_ack_header :
    ((create_response_header 1 c7in []).map
        (fun h => (h.doctype, h.devnum, h.extra1, h.extra2, h.docnum)))
      = some (7, [153, 153, 7, 137, 18, 52, 86, 127], [16, 9],
              [32, 32, 32, 32, 32, 32, 32, 32, 32, 32, 32, 48], [49]) ∧
    padTo 3 [49] = [49, 0, 0] ∧ ([49, 0, 0] : List Nat) ≠ [0, 0, 1] := by
  exact ⟨rfl, rfl, by decide⟩

/-- C8 (counterexample): `String.pack` is a static method and never checks
`maxlen`: the CP866 encoding of `"abc"` is three bytes, which a field with
`maxlen = 2` rejects on *decode*, yet `pack` happily emits them. -/
theorem c8_counterexample :
    StringCodec.pack "abc" = some [97, 98, 99] ∧
    StringCodec.unpack 2 [97, 98, 99] = none := by
  exact ⟨rfl, rfl⟩

theorem cp866EncodeList_length (l : List Char) (r : List Nat)
    (h : cp866EncodeList l = some r) : r.length = l.length := by
  induction l generalizing r with
  | nil => simp [cp866EncodeList] at h; simp [← h]
  | cons c cs ih =>
      rw [cp866EncodeList] at h
      split at h
      · next b bs hb hbs =>
          obtain rfl : b :: bs = r := by injection h
          simp [ih bs hbs]
      · exact absurd h (by simp)

/-- C8 (amended): `String.pack` performs no `maxlen` check at all — for every
string whose characters are all CP866-encodable it succeeds and emits exactly
the encoded bytes, regardless of any field's declared `maxlen`; it fails only
when some character has no CP866 encoding. -/
theorem c8_pack_ignores_maxlen (s : String) (bs : List Nat)
    (h : cp866Encode s = some bs) : StringCodec.pack s = some bs := by
  have hlen : bs.length = s.length := cp866EncodeList_length s.data bs h
  rw [StringCodec.pack, h]
  simp only [Option.map_some']
  rw [padTo, ← hlen, List.take_length, Nat.sub_self, List.replicate_zero,
    List.append_nil]

/-- C8 (witness): a six-byte ASCII string packs to exactly its six CP866
bytes (more than the `maxlen = 2` of the counterexample's field). -/
theorem c8_witness :
    cp866Encode "abcdef" = some [97, 98, 99, 100, 101, 102] ∧
    StringCodec.pack "abcdef" = some [97, 98, 99, 100, 101, 102] := by
  exact ⟨rfl, c8_pack_ignores_maxlen "abcdef" _ rfl⟩

/-- C9 (counterexample): corrupting only the `msgtype` byte of the valid
frame of `test_unpack` makes *both* decode paths fail — `unpack_from` and the
raw 28-byte variant `unpack_from_raw` each check `msgtype = 0xA5`; no decode
path tolerates a different message type. -/
theorem c9_counterexample :
    FrameHeader.unpack_from c9frameBad = none ∧
    FrameHeader.unpack_from_raw c9rawBad = none ∧
    (FrameHeader.unpack_from c9frame).isSome = true := by
  refine ⟨rfl, rfl, rfl⟩

/-- C9 (amended): the `msgtype` check is not configurable and has no
permissive mode: whenever the msgtype byte (offset 4 of the 32-byte form,
offset 0 of the 28-byte raw form) differs from `0xA5`, both `unpack_from`
and `unpack_from_raw` fail. -/
theorem c9_msgtype_always_checked :
    (∀ data : List Nat, data.getD 4 0 ≠ 165 →
      FrameHeader.unpack_from data = none) ∧
    (∀ data : List Nat, data.getD 0 0 ≠ 165 →
      FrameHeader.unpack_from_raw data = none) := by
  constructor
  · intro data hne
    unfold FrameHeader.unpack_from
    split
    · next b0 b1 b2 b3 b4 b5 b6 b7 b8 b9 b10 b11 b12 b13 b14 b15 b16 b17 b18
          b19 b20 b21 b22 b23 b24 b25 b26 b27 b28 b29 b30 b31 =>
        simp only [List.getD, List.get?, Option.getD_some] at hne
        simp [hne]
    · rfl
  · intro data hne
    unfold FrameHeader.unpack_from_raw
    split
    · next b0 b1 b2 b3 b4 b5 b6 b7 b8 b9 b10 b11 b12 b13 b14 b15 b16 b17 b18
          b19 b20 b21 b22 b23 b24 b25 b26 b27 =>
        simp only [List.getD, List.get?, Option.getD_some] at hne
        simp [hne]
    · rfl

/-- C9 (witness): all-zero buffers (msgtype byte 0 ≠ 0xA5) are rejected by
both paths. -/
theorem c9_witness :
    FrameHeader.unpack_from (List.replicate 32 0) = none ∧
    FrameHeader.unpack_from_raw (List.replicate 28 0) = none := by
  exact ⟨c9_msgtype_always_checked.1 _ (by decide),
         c9_msgtype_always_checked.2 _ (by decide)⟩

/-- C10: `ByteArray.unpack` returns the empty *text* string `''` on empty
input — the same value `String.unpack` returns — skipping the `maxlen`
check (the early return precedes it), while every non-empty input within
`maxlen` comes back as a byte string, a value no text string equals. -/
theorem c10_bytearray_unpack (m : Nat) (data : List Nat)
    (hne : data ≠ []) (hlen : data.length ≤ m) :
    ByteArrayCodec.unpack m [] = some (PyVal.str "") ∧
    StringCodec.unpack m [] = some (PyVal.str "") ∧
    ByteArrayCodec.unpack m data = some (PyVal.bytes data) ∧
    ∀ s : String, PyVal.str s ≠ PyVal.bytes data := by
  refine ⟨rfl, rfl, ?_, fun s hcontra => PyVal.noConfusion hcontra⟩
  rw [ByteArrayCodec.unpack,
    if_neg (fun h0 => hne (List.length_eq_zero.mp h0)), if_neg (by omega)]

/-- C10 (witness): at `maxlen = 8`, the empty buffer decodes to `''` and the
two-byte buffer `[1, 2]` to its bytes. -/
theorem c10_witness :
    ByteArrayCodec.unpack 8 [] = some (PyVal.str "") ∧
    StringCodec.unpack 8 [] = some (PyVal.str "") ∧
    ByteArrayCodec.unpack 8 [1, 2] = some (PyVal.bytes [1, 2]) ∧
    ∀ s : String, PyVal.str s ≠ PyVal.bytes [1, 2] := by
  exact c10_bytearray_unpack 8 [1, 2] (by decide) (by decide)

end OFD
